import Mathlib

/-!
# Verification of the MDoNER DPR assessment pipeline

Shallow embedding of the document-scoring and risk-inference pipeline of
the repository (files `dpr_analyzer.py` and `risk_predictor.py`), together
with theorems settling the spec's claims about it.

Modelling conventions:
* Python ints and floats are modelled as `ℚ` (all arithmetic in the
  pipeline is exact on rationals; `round(x, 1)` becomes `round1`).
* Python dictionaries that are read with `.get` are modelled as
  association lists (`List (String × _)`) or `Option` fields, so that a
  missing key is representable.
* Wall-clock timestamps (`datetime.now().isoformat()`) are modelled by an
  explicit `now : ℚ` argument threaded into the functions that stamp it.
* The `try/except` wrappers are modelled by an `Except String _` argument
  standing for the outcome of the guarded body: `.ok r` when no step
  raised, `.error e` when some step raised.
* The random draws of the fallback paths (`np.random.randint`,
  `random.uniform`) are modelled by explicit oracle functions, with the
  draw ranges stated as hypotheses.
-/

namespace DPR

/-- Left-to-right non-overlapping scan with explicit fuel; the fuel is
an upper bound on the number of scan steps (one step consumes at least
one character of `hay` whenever `pat` is non-empty). -/
def pyCountAux : Nat → List Char → List Char → Nat
  | 0, _, _ => 0
  | _ + 1, [], _ => 0
  | fuel + 1, c :: t, pat =>
    if pat.isPrefixOf (c :: t) then
      1 + pyCountAux fuel (List.drop pat.length (c :: t)) pat
    else
      pyCountAux fuel t pat

/-- Python `str.count`: number of non-overlapping occurrences of `pat`
in `hay`, scanning left to right (for the degenerate empty pattern Python
returns `len + 1`; the pipeline's keywords are all non-empty). -/
def pyCount (hay pat : List Char) : Nat :=
  if pat.length = 0 then hay.length + 1 else pyCountAux hay.length hay pat

/-- Case-insensitive substring count: the text is lower-cased once
(`text_content.lower()`, modelled characterwise by `Char.toLower`; all
catalog keywords are ASCII and already lowercase), then the keyword
occurrences are counted with `str.count`. -/
def lowerCount (text kw : String) : Nat :=
  pyCount (text.toList.map Char.toLower) kw.toList

/-- `DPRAnalyzer.section_weights`: the fixed ordered catalog of the 10
sections with their weights. -/
def section_weights : List (String × ℚ) :=
  [("Context/Background", 10),
   ("Problems Addressed", 15),
   ("Project Objectives", 15),
   ("Technology Issues", 10),
   ("Management Arrangements", 10),
   ("Means of Finance", 15),
   ("Time Frame", 10),
   ("Target Beneficiaries", 5),
   ("Legal Framework", 5),
   ("Risk Analysis", 5)]

/-- The catalog's section names, in catalog order. -/
def sectionNames : List String := section_weights.map Prod.fst

/-- `DPRAnalyzer.section_keywords`. -/
def section_keywords : List (String × List String) :=
  [("Context/Background", ["context", "background", "policy", "sector", "strategic", "importance"]),
   ("Problems Addressed", ["problem", "issue", "challenge", "baseline", "gap", "need"]),
   ("Project Objectives", ["objective", "goal", "target", "deliverable", "outcome", "benefit"]),
   ("Technology Issues", ["technology", "technical", "system", "infrastructure", "platform"]),
   ("Management Arrangements", ["management", "organization", "structure", "responsibility", "governance"]),
   ("Means of Finance", ["finance", "budget", "cost", "funding", "investment", "expenditure"]),
   ("Time Frame", ["timeline", "schedule", "duration", "phase", "milestone", "completion"]),
   ("Target Beneficiaries", ["beneficiary", "stakeholder", "community", "user", "participant"]),
   ("Legal Framework", ["legal", "regulation", "compliance", "approval", "clearance", "law"]),
   ("Risk Analysis", ["risk", "threat", "vulnerability", "mitigation", "contingency"])]

/-- `self.section_keywords.get(section_name, [])`. -/
def keywordsFor (name : String) : List String :=
  (section_keywords.lookup name).getD []

/-- `keyword_count = sum(text_lower.count(keyword) for keyword in keywords)`. -/
def keyword_count (text name : String) : Nat :=
  ((keywordsFor name).map (lowerCount text)).sum

/-- Quality-indicator table of `DPRAnalyzer.assess_section_quality`. -/
def quality_indicators : List (String × List String) :=
  [("Context/Background", ["policy", "strategic", "alignment", "sector"]),
   ("Problems Addressed", ["baseline", "data", "evidence", "statistics"]),
   ("Project Objectives", ["specific", "measurable", "achievable", "relevant"]),
   ("Technology Issues", ["technical", "feasibility", "specifications", "architecture"]),
   ("Management Arrangements", ["organization", "roles", "responsibilities", "monitoring"]),
   ("Means of Finance", ["budget", "cost", "estimates", "financial"]),
   ("Time Frame", ["timeline", "milestones", "schedule", "phases"]),
   ("Target Beneficiaries", ["stakeholders", "beneficiaries", "community", "impact"]),
   ("Legal Framework", ["compliance", "regulations", "approvals", "legal"]),
   ("Risk Analysis", ["risks", "mitigation", "contingency", "management"])]

/-- `DPRAnalyzer.assess_section_quality`. -/
def assess_section_quality (text name : String) : ℚ :=
  let indicators := (quality_indicators.lookup name).getD []
  let quality_count := (indicators.map (lowerCount text)).sum
  min 100 (50 + quality_count * 10)

/-- `DPRAnalyzer.identify_section_issues` (receives the pre-clamp score
and completeness, as at the call site). -/
def identify_section_issues (name : String) (score completeness : ℚ) : List String :=
  (if score < 50 then ["Low content quality in " ++ name] else []) ++
  (if completeness < 60 then ["Incomplete coverage of " ++ name ++ " requirements"] else []) ++
  (if name = "Risk Analysis" ∧ score < 70 then
    ["Insufficient risk identification and mitigation strategies"] else []) ++
  (if name = "Means of Finance" ∧ score < 70 then
    ["Budget details and cost estimates need improvement"] else [])

/-- Advice table of `DPRAnalyzer.generate_section_recommendations`. -/
def section_advice : List (String × String) :=
  [("Context/Background", "Include sectoral policy references and strategic importance"),
   ("Problems Addressed", "Provide comprehensive baseline data with statistical evidence"),
   ("Project Objectives", "Define clear, measurable, and time-bound objectives"),
   ("Technology Issues", "Add technical feasibility analysis and technology justification"),
   ("Management Arrangements", "Detail organizational structure and monitoring framework"),
   ("Means of Finance", "Include detailed budget breakdown with market-based estimates"),
   ("Time Frame", "Provide realistic timeline with PERT/CPM analysis"),
   ("Target Beneficiaries", "Conduct comprehensive stakeholder analysis"),
   ("Legal Framework", "Ensure all regulatory requirements are addressed"),
   ("Risk Analysis", "Develop comprehensive risk register with mitigation plans")]

/-- `DPRAnalyzer.generate_section_recommendations`. -/
def generate_section_recommendations (name : String) (score : ℚ) : List String :=
  if score < 75 then
    [(section_advice.lookup name).getD ("Improve " ++ name ++ " section quality")]
  else []

/-- A section analysis dictionary. `keyword_matches` is an `Option`
because the fallback path of the analyzer builds the dictionary without
that key. -/
structure SectionResult where
  score : ℚ
  completeness : ℚ
  quality : ℚ
  keyword_matches : Option Nat
  issues : List String
  recommendations : List String
deriving DecidableEq

/-- `DPRAnalyzer.analyze_section`. -/
def analyze_section (text name : String) : SectionResult :=
  let k := keyword_count text name
  let score : ℚ :=
    if 5 ≤ k then min 90 (60 + k * 3)
    else if 2 ≤ k then 50 + k * 8
    else max 30 (k * 15)
  let completeness : ℚ :=
    if 5 ≤ k then min 95 (70 + k * 2)
    else if 2 ≤ k then 50 + k * 10
    else max 20 (k * 20)
  { score := min 100 score
    completeness := min 100 completeness
    quality := min 100 (assess_section_quality text name)
    keyword_matches := some k
    issues := identify_section_issues name score completeness
    recommendations := generate_section_recommendations name score }

/-! Spec-side restatement of the claim's scoring tiers, written from the
claim's words, to be compared with `analyze_section`. -/

/-- The claim's score formula as a function of `keyword_count`. -/
def claimSectionScore (k : Nat) : ℚ :=
  min 100 (if 5 ≤ k then min 90 (60 + 3 * k) else if 2 ≤ k then 50 + 8 * k else max 30 (15 * k))

/-- The claim's completeness formula as a function of `keyword_count`. -/
def claimSectionCompleteness (k : Nat) : ℚ :=
  min 100 (if 5 ≤ k then min 95 (70 + 2 * k) else if 2 ≤ k then 50 + 10 * k else max 20 (20 * k))

/-- `round(x, 1)`: rounding to one decimal place (Mathlib's `round`
rounds halves up; Python's float `round` differs from it only on exact
two-decimal ties, which none of the claims touch). -/
def round1 (q : ℚ) : ℚ := (round (q * 10) : ℤ) / 10

/-- `len(text_content.split())`: whitespace-delimited token count
(Python's argumentless `split` drops empty fields). -/
def wordCountOf (text : String) : Nat :=
  ((text.split fun c => c.isWhitespace).filter fun s => s ≠ "").length

/-- Sentence separator characters of `re.split(r'[.!?]+', text)`. -/
def isSentenceSep (c : Char) : Bool := c = '.' || c = '!' || c = '?'

/-- Number of maximal runs of sentence separators; the boolean tracks
whether the previous character was a separator. -/
def sepRuns : List Char → Bool → Nat
  | [], _ => 0
  | c :: t, inRun =>
    if isSentenceSep c then (if inRun then 0 else 1) + sepRuns t true
    else sepRuns t false

/-- `len(re.split(r'[.!?]+', text))`: the number of fields after
splitting on maximal separator runs, i.e. runs + 1. -/
def sentenceCountOf (text : String) : Nat := sepRuns text.toList false + 1

/-- `DPRAnalyzer.assess_data_accuracy`. -/
def assess_data_accuracy (text : String) : ℚ :=
  let cnt := ((["data", "statistics", "survey", "study", "research", "evidence",
    "source"] : List String).map (lowerCount text)).sum
  min 100 (40 + cnt * 8)

/-- `DPRAnalyzer.assess_technical_viability`:
`section_analyses.get('Technology Issues', {}).get('score', 50) + 10`,
capped at 100. -/
def assess_technical_viability (sa : List (String × SectionResult)) : ℚ :=
  let tech_score := ((sa.lookup "Technology Issues").map SectionResult.score).getD 50
  min 100 (tech_score + 10)

/-- `DPRAnalyzer.assess_compliance`. -/
def assess_compliance (sa : List (String × SectionResult)) : ℚ :=
  let sections_present := sa.countP fun p => decide (40 < p.2.completeness)
  round1 ((sections_present : ℚ) / (section_weights.length : ℚ) * 100)

/-- `DPRAnalyzer.assess_budget_realism`. -/
def assess_budget_realism (text : String) : ℚ :=
  let cnt := ((["cost", "budget", "estimate", "financial", "rupees", "crore",
    "lakh"] : List String).map (lowerCount text)).sum
  min 100 (30 + cnt * 12)

/-- The `quality_scores` dictionary. -/
structure QualityScores where
  data_accuracy : ℚ
  completeness : ℚ
  technical_viability : ℚ
  compliance : ℚ
  budget_realism : ℚ
deriving DecidableEq

/-- `DPRAnalyzer.calculate_quality_scores` (`np.mean` is the arithmetic
mean of the 10 section completeness values). -/
def calculate_quality_scores (text : String) (sa : List (String × SectionResult)) :
    QualityScores :=
  { data_accuracy := round1 (assess_data_accuracy text)
    completeness := round1 (((sa.map fun p => p.2.completeness).sum) / (sa.length : ℚ))
    technical_viability := round1 (assess_technical_viability sa)
    compliance := round1 (assess_compliance sa)
    budget_realism := round1 (assess_budget_realism text) }

/-- `DPRAnalyzer.calculate_readability`, parameterised by the toolkit
availability flag and the word/sentence counts the statistical-text
toolkit reports for the text (its tokenisation is an external library;
it is deterministic in the text). -/
def calculate_readability (nlpAvailable : Bool) (words sentences : Nat) : ℚ :=
  if ¬nlpAvailable then 70
  else if sentences = 0 then 50
  else
    let avg : ℚ := (words : ℚ) / (sentences : ℚ)
    if avg < 15 then 90
    else if avg < 20 then 75
    else if avg < 25 then 60
    else 45

/-- The `document_stats` dictionary. -/
structure DocumentStats where
  word_count : Nat
  sentence_count : Nat
  readability : ℚ
deriving DecidableEq

/-- The analysis-result dictionary of `DPRAnalyzer.analyze_dpr`.
`analyzed_at` models `datetime.now().isoformat()` as a rational
timestamp. -/
structure AnalysisRecord where
  filename : String
  analyzed_at : ℚ
  overall_score : ℚ
  completeness_percentage : ℚ
  sections_found : Nat
  total_sections : Nat
  section_analyses : List (String × SectionResult)
  quality_scores : QualityScores
  document_stats : DocumentStats
deriving DecidableEq

/-- The guarded body of `DPRAnalyzer.analyze_dpr` (the `try` block), in
the configuration where the NLP toolkit is available; `now` is the
wall-clock timestamp at which the record is stamped. The toolkit word
and sentence counts fed to `calculate_readability` are modelled by the
document-stats tokenizers. -/
def analyze_dpr_ok (text filename : String) (now : ℚ) : AnalysisRecord :=
  let sa := sectionNames.map fun n => (n, analyze_section text n)
  let total_weighted_score : ℚ :=
    (section_weights.map fun p => (analyze_section text p.1).score * (p.2 / 100)).sum
  let sections_found := sa.countP fun p => decide (30 < p.2.completeness)
  { filename := filename
    analyzed_at := now
    overall_score := round1 total_weighted_score
    completeness_percentage :=
      round1 ((sections_found : ℚ) / (section_weights.length : ℚ) * 100)
    sections_found := sections_found
    total_sections := section_weights.length
    section_analyses := sa
    quality_scores := calculate_quality_scores text sa
    document_stats :=
      { word_count := wordCountOf text
        sentence_count := sentenceCountOf text
        readability := calculate_readability true (wordCountOf text) (sentenceCountOf text) } }

/-- `DPRAnalyzer.generate_fallback_analysis`. The `np.random.randint`
draws are modelled by the oracles `jS`, `jC`, `jQ` giving each section
its score/completeness/quality jitter; the fallback section dictionaries
carry no `keyword_matches` key. -/
def generate_fallback_analysis (filename text : String) (now : ℚ)
    (jS jC jQ : String → ℤ) : AnalysisRecord :=
  let wc := wordCountOf text
  let base : Nat := min 85 (max 45 (40 + wc / 100))
  let sa := sectionNames.map fun n =>
    (n, ({ score := (base : ℚ) + (jS n : ℚ)
           completeness := (base : ℚ) + (jC n : ℚ)
           quality := (base : ℚ) + (jQ n : ℚ)
           keyword_matches := none
           issues := []
           recommendations := [] } : SectionResult))
  { filename := filename
    analyzed_at := now
    overall_score := (base : ℚ)
    completeness_percentage := 75
    sections_found := 8
    total_sections := 10
    section_analyses := sa
    quality_scores :=
      { data_accuracy := (base : ℚ)
        completeness := 75
        technical_viability := (base : ℚ) - 5
        compliance := 80
        budget_realism := (base : ℚ) - 10 }
    document_stats :=
      { word_count := wc
        sentence_count := max 10 (wc / 20)
        readability := 70 } }

/-- `DPRAnalyzer.analyze_dpr`: the `try/except` wrapper. `attempt` is
the outcome of the guarded body; on any exception the fallback analysis
is returned instead of propagating the failure. -/
def analyze_dpr (attempt : Except String AnalysisRecord)
    (filename text : String) (now : ℚ) (jS jC jQ : String → ℤ) : AnalysisRecord :=
  match attempt with
  | .ok r => r
  | .error _ => generate_fallback_analysis filename text now jS jC jQ

/-! ## Risk predictor (`risk_predictor.py`), rule-based path -/

/-- The three risk levels the predictor emits. -/
inductive RiskLevel
  | Low
  | Medium
  | High
deriving DecidableEq

/-- `RiskPredictor.risk_categories`. -/
def risk_categories : List String :=
  ["Budget Overrun Risk",
   "Timeline Delay Risk",
   "Technical Implementation Risk",
   "Compliance Risk",
   "Resource Availability Risk"]

/-- A per-category risk dictionary. -/
structure RiskResult where
  probability : ℚ
  level : RiskLevel
  severity : RiskLevel
  primary_factors : List String
  mitigation_suggestions : List String
deriving DecidableEq

/-- The shared probability → level mapping of both strategies. -/
def levelOf (p : ℚ) : RiskLevel :=
  if 60 ≤ p then .High else if 40 ≤ p then .Medium else .Low

/-- The slice of the analysis dictionary the rule-based path reads:
`overall_score` may be absent, and each section dictionary may be absent
or lack its `score` key. -/
structure AnalysisInput where
  overall_score : Option ℚ
  section_analyses : List (String × Option ℚ)

/-- `analysis_result.get('section_analyses', {}).get(name, {}).get('score', d)`. -/
def sectionScoreGet (a : AnalysisInput) (name : String) (d : ℚ) : ℚ :=
  match a.section_analyses.lookup name with
  | some (some s) => s
  | some none => d
  | none => d

/-- Primary-factor table of `RiskPredictor._identify_risk_factors`
(the function's analysis argument is read but unused; it returns the
first 3 of the category's 4 canned factors). -/
def identify_risk_factors (cat : String) : List String :=
  let table : List (String × List String) :=
    [("Budget Overrun Risk",
      ["Inadequate cost estimation methodology",
       "Missing market rate analysis",
       "No contingency planning",
       "Unrealistic budget assumptions"]),
     ("Timeline Delay Risk",
      ["Aggressive project timeline",
       "Insufficient buffer time allocation",
       "Complex dependency management",
       "Approval process delays"]),
     ("Technical Implementation Risk",
      ["Unproven technology selection",
       "High technical complexity",
       "Integration challenges",
       "Skill gap in implementation team"]),
     ("Compliance Risk",
      ["Missing regulatory approvals",
       "Incomplete compliance framework",
       "Environmental clearance gaps",
       "Legal framework uncertainties"]),
     ("Resource Availability Risk",
      ["Skilled manpower shortage",
       "Equipment procurement delays",
       "Vendor reliability issues",
       "Resource allocation conflicts"])]
  ((table.lookup cat).getD ["General project risks"]).take 3

/-- `RiskPredictor._get_mitigation_suggestions`. -/
def get_mitigation_suggestions (cat : String) : List String :=
  let table : List (String × List String) :=
    [("Budget Overrun Risk",
      ["Conduct detailed market survey for cost estimation",
       "Include 10-15% contingency in budget",
       "Implement regular cost monitoring and control",
       "Establish cost escalation mechanisms"]),
     ("Timeline Delay Risk",
      ["Develop realistic project schedule with buffers",
       "Implement critical path method (CPM)",
       "Establish fast-track approval processes",
       "Create parallel execution streams"]),
     ("Technical Implementation Risk",
      ["Conduct proof of concept studies",
       "Engage technical experts and consultants",
       "Implement phased rollout approach",
       "Establish technical support agreements"]),
     ("Compliance Risk",
      ["Engage early with regulatory authorities",
       "Conduct comprehensive legal review",
       "Establish compliance monitoring framework",
       "Maintain regulatory relationship management"]),
     ("Resource Availability Risk",
      ["Develop comprehensive resource plan",
       "Establish vendor partnerships and agreements",
       "Implement skill development programs",
       "Create resource backup strategies"])]
  ((table.lookup cat).getD ["Develop risk-specific mitigation plan"]).take 3

/-- `RiskPredictor._rule_based_risk`. -/
def rule_based_risk (cat : String) (a : AnalysisInput) : RiskResult :=
  let overall_score := a.overall_score.getD 75
  let base_probability : ℚ := max 0 (100 - overall_score)
  let p0 : ℚ :=
    if cat = "Budget Overrun Risk" then
      base_probability + (100 - sectionScoreGet a "Means of Finance" 70) * 0.5
    else if cat = "Timeline Delay Risk" then
      base_probability + (100 - sectionScoreGet a "Time Frame" 70) * 0.6
    else if cat = "Technical Implementation Risk" then
      base_probability + (100 - sectionScoreGet a "Technology Issues" 70) * 0.7
    else if cat = "Compliance Risk" then
      base_probability + (100 - sectionScoreGet a "Legal Framework" 80) * 0.4
    else if cat = "Resource Availability Risk" then
      base_probability + (100 - sectionScoreGet a "Management Arrangements" 75) * 0.5
    else base_probability
  let p := min 85 (max 15 p0)
  { probability := round1 p
    level := levelOf p
    severity := levelOf p
    primary_factors := identify_risk_factors cat
    mitigation_suggestions := get_mitigation_suggestions cat }

/-- `RiskPredictor._predict_with_rules`. -/
def predict_with_rules (a : AnalysisInput) : List (String × RiskResult) :=
  risk_categories.map fun c => (c, rule_based_risk c a)

/-- The overall-risk dictionary. In the `total_risks == 0` early return
the source omits the three count keys; that branch is out of scope of
every claim (the pipeline always passes 5 categories) and the counts are
modelled as 0 there. -/
structure OverallRisk where
  level : RiskLevel
  score : ℚ
  high_risk_count : Nat
  medium_risk_count : Nat
  low_risk_count : Nat
deriving DecidableEq

/-- `RiskPredictor._calculate_overall_risk`. -/
def calculate_overall_risk (preds : List (String × RiskResult)) : OverallRisk :=
  let h := preds.countP fun p => decide (p.2.level = .High)
  let m := preds.countP fun p => decide (p.2.level = .Medium)
  let l := preds.countP fun p => decide (p.2.level = .Low)
  let total := preds.length
  if total = 0 then
    { level := .Medium, score := 50, high_risk_count := 0, medium_risk_count := 0,
      low_risk_count := 0 }
  else
    let weighted : ℚ := ((h : ℚ) * 3 + (m : ℚ) * 2 + (l : ℚ) * 1) / (total : ℚ)
    { level := if 2.5 ≤ weighted then .High else if 1.5 ≤ weighted then .Medium else .Low
      score := round1 (weighted / 3 * 100)
      high_risk_count := h
      medium_risk_count := m
      low_risk_count := l }

/-- `RiskPredictor._generate_risk_summary`. -/
def generate_risk_summary (preds : List (String × RiskResult))
    (overall : OverallRisk) : String :=
  let highs := (preds.filter fun p => decide (p.2.level = .High)).map Prod.fst
  if highs ≠ [] then
    "High priority risks identified in " ++ String.intercalate ", " highs ++
      ". Immediate attention and mitigation planning required."
  else if overall.level = .Medium then
    "Medium priority risks identified. Enhanced monitoring and mitigation planning recommended."
  else
    "Low risk project profile. Standard risk management practices sufficient."

/-- The result bundle of `RiskPredictor.predict_risks`; `generated_at`
models the wall-clock timestamp. -/
structure RiskBundle where
  overall_risk : OverallRisk
  risk_predictions : List (String × RiskResult)
  risk_summary : String
  generated_at : ℚ
deriving DecidableEq

/-- The guarded body of `RiskPredictor.predict_risks` in the rule-based
configuration (no ML models): predictions, overall risk, summary. -/
def predict_risks_rules (a : AnalysisInput) (now : ℚ) : RiskBundle :=
  let preds := predict_with_rules a
  let overall := calculate_overall_risk preds
  { overall_risk := overall
    risk_predictions := preds
    risk_summary := generate_risk_summary preds overall
    generated_at := now }

/-- `RiskPredictor._generate_fallback_risks`; `u` models the
`random.uniform(25, 75)` draw for each category. -/
def generate_fallback_risks (u : String → ℚ) (now : ℚ) : RiskBundle :=
  let preds := risk_categories.map fun cat =>
    (cat,
     ({ probability := round1 (u cat)
        level := levelOf (u cat)
        severity := levelOf (u cat)
        primary_factors := ["Analysis module error - using fallback assessment"]
        mitigation_suggestions := ["Conduct detailed risk assessment manually"] } : RiskResult))
  { overall_risk :=
      { level := .Medium, score := 50,
        high_risk_count := 1, medium_risk_count := 3, low_risk_count := 1 }
    risk_predictions := preds
    risk_summary := "Fallback risk assessment - manual review recommended"
    generated_at := now }

/-- `RiskPredictor.predict_risks`: the `try/except` wrapper. `attempt`
is the outcome of the guarded body; on any exception the fallback bundle
is returned instead of propagating the failure. -/
def predict_risks (attempt : Except String RiskBundle)
    (u : String → ℚ) (now : ℚ) : RiskBundle :=
  match attempt with
  | .ok r => r
  | .error _ => generate_fallback_risks u now

/-! ## Recommendation synthesis (`DPRAnalyzer.generate_recommendations`) -/

/-- A recommendation entry. -/
structure Recommendation where
  priority : String
  category : String
  recommendation : String
deriving DecidableEq

/-- Stable insertion into an ascending-by-score list: an element is
placed before the first strictly-greater-or-equal element coming from
later in the original list, which reproduces the output of Python's
stable `list.sort(key=score)`. -/
def stableInsert (x : String × ℚ) : List (String × ℚ) → List (String × ℚ)
  | [] => [x]
  | y :: t => if x.2 ≤ y.2 then x :: y :: t else y :: stableInsert x t

/-- Stable ascending sort by score (same output as Python's stable
`sort`, since a stable sort over a total preorder is unique). -/
def stableSortByScore : List (String × ℚ) → List (String × ℚ)
  | [] => []
  | x :: t => stableInsert x (stableSortByScore t)

/-- `DPRAnalyzer.generate_recommendations`, on the (name, score) view of
`section_analyses` and the overall score the function reads. -/
def generate_recommendations (sa : List (String × ℚ)) (overall_score : ℚ) :
    List Recommendation :=
  let low_scoring := sa.filter fun p => decide (p.2 < 65)
  let sorted := stableSortByScore low_scoring
  let recs :=
    (sorted.take 3).map fun p =>
      ({ priority := if p.2 < (50 : ℚ) then "High" else "Medium"
         category := p.1
         recommendation := "Improve " ++ p.1 ++ " section to meet MDoNER standards" } :
        Recommendation)
  let recs := recs ++
    (if overall_score < 70 then
      [({ priority := "High", category := "Overall Quality",
          recommendation :=
            "Comprehensive review and enhancement required across multiple sections" } :
        Recommendation)]
     else [])
  let tech_score := (sa.lookup "Technology Issues").getD 0
  let recs := recs ++
    (if tech_score < 70 then
      [({ priority := "Medium", category := "Technical Feasibility",
          recommendation :=
            "Include detailed technical feasibility study and technology validation" } :
        Recommendation)]
     else [])
  recs.take 5

end DPR

namespace DPR

/-- C1: for every text and every catalog section, `analyze_section`
returns the tiered score/completeness of the claim (clamped at 100),
reports `keyword_matches` as the keyword count, and at `keyword_count = 1`
yields score 30 and completeness 20. -/
theorem C1_section_scoring (text name : String) (_h : name ∈ sectionNames) :
    (analyze_section text name).score = claimSectionScore (keyword_count text name) ∧
    (analyze_section text name).completeness =
      claimSectionCompleteness (keyword_count text name) ∧
    (analyze_section text name).keyword_matches = some (keyword_count text name) ∧
    (keyword_count text name = 1 →
      (analyze_section text name).score = 30 ∧
      (analyze_section text name).completeness = 20) := by
  refine ⟨?_, ?_, rfl, ?_⟩
  · simp only [analyze_section, claimSectionScore]
    split_ifs <;> ring_nf
  · simp only [analyze_section, claimSectionCompleteness]
    split_ifs <;> ring_nf
  · intro hk
    simp only [analyze_section, hk]
    norm_num

/-- Witness for C1: the text `"law"` hits exactly one keyword of the
`Legal Framework` section, so its score is 30 and completeness 20. -/
theorem C1_section_scoring_witness :
    "Legal Framework" ∈ sectionNames ∧
    keyword_count "law" "Legal Framework" = 1 ∧
    (analyze_section "law" "Legal Framework").score = 30 ∧
    (analyze_section "law" "Legal Framework").completeness = 20 := by
  refine ⟨by decide, by decide, ?_⟩
  exact (C1_section_scoring "law" "Legal Framework" (by decide)).2.2.2 (by decide)

/-! ## Helper lemmas about one-decimal rounding -/

/-- `round1` is monotone. -/
lemma round1_mono {a b : ℚ} (hab : a ≤ b) : round1 a ≤ round1 b := by
  unfold round1
  have h : round (a * 10) ≤ round (b * 10) := by
    rw [round_eq, round_eq]
    exact Int.floor_mono (by linarith)
  have h' : ((round (a * 10) : ℤ) : ℚ) ≤ ((round (b * 10) : ℤ) : ℚ) := by exact_mod_cast h
  linarith

/-- `round1` fixes integers. -/
lemma round1_intCast (n : ℤ) : round1 (n : ℚ) = n := by
  unfold round1
  rw [show ((n : ℚ) * 10) = ((n * 10 : ℤ) : ℚ) by push_cast; ring, round_intCast]
  push_cast
  ring

/-- Rounding to one decimal moves a rational by at most `1/20`. -/
lemma abs_round1_sub (q : ℚ) : |round1 q - q| ≤ 1 / 20 := by
  unfold round1
  have h := abs_sub_round (q * 10)
  rw [abs_sub_comm] at h
  have h10 : ((round (q * 10) : ℤ) : ℚ) / 10 - q = ((round (q * 10) : ℤ) - q * 10) / 10 := by
    ring
  rw [h10, abs_div]
  rw [abs_of_nonneg (by norm_num : (0 : ℚ) ≤ 10)]
  linarith

/-- `round1` maps `[lo, hi]` into itself for integer endpoints. -/
lemma round1_mem_Icc (lo hi : ℤ) {q : ℚ} (h1 : (lo : ℚ) ≤ q) (h2 : q ≤ (hi : ℚ)) :
    (lo : ℚ) ≤ round1 q ∧ round1 q ≤ (hi : ℚ) := by
  constructor
  · have := round1_mono h1
    rwa [round1_intCast] at this
  · have := round1_mono h2
    rwa [round1_intCast] at this

/-! ## C2: the rule-based risk formula -/

/-- A full analysis input in which `overall_score` and each driver
section score are present, as the claim's "analysis record" has them. -/
def mkFullInput (os fin tf ti lf ma : ℚ) : AnalysisInput :=
  { overall_score := some os
    section_analyses :=
      [("Means of Finance", some fin),
       ("Time Frame", some tf),
       ("Technology Issues", some ti),
       ("Legal Framework", some lf),
       ("Management Arrangements", some ma)] }

/-- The claim's probability formula: base `max(0, 100 - overall_score)`
plus the designated driver deficit times its weight, clamped to
`[15, 85]`. Stated from the claim's words. -/
def claimRiskProb (cat : String) (os fin tf ti lf ma : ℚ) : ℚ :=
  let base := max 0 (100 - os)
  let raw :=
    if cat = "Budget Overrun Risk" then base + (100 - fin) * 0.5
    else if cat = "Timeline Delay Risk" then base + (100 - tf) * 0.6
    else if cat = "Technical Implementation Risk" then base + (100 - ti) * 0.7
    else if cat = "Compliance Risk" then base + (100 - lf) * 0.4
    else if cat = "Resource Availability Risk" then base + (100 - ma) * 0.5
    else base
  min 85 (max 15 raw)

/-- The claim's probability → level map: `≥ 60` High, `40 ≤ _ < 60`
Medium, `< 40` Low. -/
def claimLevelOf (p : ℚ) : RiskLevel :=
  if 60 ≤ p then .High else if 40 ≤ p then .Medium else .Low

/-- C2: on every full analysis record, each catalog risk category's
rule-based result carries the claim's clamped probability (stored to one
decimal), the claim's level map applied to it, and severity equal to
level; in particular overall 78 with Means-of-Finance 75 gives
Budget-Overrun probability 34.5 and level Low. -/
theorem C2_rule_based_risk :
    (∀ os fin tf ti lf ma : ℚ, ∀ cat ∈ risk_categories,
      (rule_based_risk cat (mkFullInput os fin tf ti lf ma)).probability =
        round1 (claimRiskProb cat os fin tf ti lf ma) ∧
      (rule_based_risk cat (mkFullInput os fin tf ti lf ma)).level =
        claimLevelOf (claimRiskProb cat os fin tf ti lf ma) ∧
      (rule_based_risk cat (mkFullInput os fin tf ti lf ma)).severity =
        (rule_based_risk cat (mkFullInput os fin tf ti lf ma)).level) ∧
    ((rule_based_risk "Budget Overrun Risk"
        { overall_score := some 78,
          section_analyses := [("Means of Finance", some 75)] }).probability = 34.5 ∧
     (rule_based_risk "Budget Overrun Risk"
        { overall_score := some 78,
          section_analyses := [("Means of Finance", some 75)] }).level = .Low) := by
  constructor
  · intro os fin tf ti lf ma cat hcat
    simp only [risk_categories, List.mem_cons, List.not_mem_nil, or_false] at hcat
    rcases hcat with rfl | rfl | rfl | rfl | rfl <;>
      exact ⟨rfl, rfl, rfl⟩
  · constructor
    · show round1 (min 85 (max 15 (max 0 (100 - 78) + (100 - 75) * 0.5))) = 34.5
      norm_num [round1, round_eq, min_def, max_def]
    · show levelOf (min 85 (max 15 (max 0 (100 - 78) + (100 - 75) * 0.5))) = .Low
      norm_num [levelOf, min_def, max_def]

/-- Witness for C2: the Compliance category on a concrete full record. -/
theorem C2_rule_based_risk_witness :
    "Compliance Risk" ∈ risk_categories ∧
    (rule_based_risk "Compliance Risk" (mkFullInput 78 75 75 75 75 75)).probability =
      round1 (claimRiskProb "Compliance Risk" 78 75 75 75 75 75) := by
  exact ⟨by decide, (C2_rule_based_risk.1 78 75 75 75 75 75 "Compliance Risk" (by decide)).1⟩

/-! ## C5: overall risk aggregation -/

/-- Count of predictions at a given level. -/
def countLevel (preds : List (String × RiskResult)) (lvl : RiskLevel) : Nat :=
  preds.countP fun p => decide (p.2.level = lvl)

/-- The claim's overall-risk formula for 5 categories with `h`/`m`/`l`
High/Medium/Low counts: `weighted = (3h + 2m + l)/5`, level High when
`weighted ≥ 2.5`, Medium when `≥ 1.5`, else Low, and
`score = round(100·weighted/3, 1)`, together with the counts. -/
def claimOverall5 (h m l : Nat) : OverallRisk :=
  let weighted : ℚ := (3 * (h : ℚ) + 2 * (m : ℚ) + (l : ℚ)) / 5
  { level := if 2.5 ≤ weighted then .High else if 1.5 ≤ weighted then .Medium else .Low
    score := round1 (100 * weighted / 3)
    high_risk_count := h
    medium_risk_count := m
    low_risk_count := l }

/-- A High-level risk result (used in the Scenario-E example). -/
def exHighRisk : RiskResult :=
  { probability := 70, level := .High, severity := .High,
    primary_factors := [], mitigation_suggestions := [] }

/-- A Low-level risk result (used in the Scenario-E example). -/
def exLowRisk : RiskResult :=
  { probability := 20, level := .Low, severity := .Low,
    primary_factors := [], mitigation_suggestions := [] }

/-- Scenario E: 4 High categories and 1 Low category. -/
def ex4High1Low : List (String × RiskResult) :=
  [("a", exHighRisk), ("b", exHighRisk), ("c", exHighRisk), ("d", exHighRisk),
   ("e", exLowRisk)]

/-- C5: for every set of 5 per-category results, the overall risk is the
claim's weighted aggregate with the three level counts, and 4 High plus
1 Low categories yield weighted 2.6, level High and score 86.7. -/
theorem C5_overall_risk :
    (∀ preds : List (String × RiskResult), preds.length = 5 →
      calculate_overall_risk preds =
        claimOverall5 (countLevel preds .High) (countLevel preds .Medium)
          (countLevel preds .Low)) ∧
    (calculate_overall_risk ex4High1Low =
      { level := .High, score := 86.7, high_risk_count := 4, medium_risk_count := 0,
        low_risk_count := 1 }) := by
  constructor
  · intro preds hlen
    have hw : ((countLevel preds .High : ℚ) * 3 + (countLevel preds .Medium : ℚ) * 2 +
        (countLevel preds .Low : ℚ) * 1) / (preds.length : ℚ) =
        (3 * (countLevel preds .High : ℚ) + 2 * (countLevel preds .Medium : ℚ) +
          (countLevel preds .Low : ℚ)) / 5 := by
      rw [hlen]; push_cast; ring_nf
    simp only [calculate_overall_risk, claimOverall5, countLevel, hlen, hw]
    norm_num
    ring_nf
    exact ⟨trivial, trivial⟩
  · have hh : List.countP (fun p => decide (p.2.level = RiskLevel.High)) ex4High1Low = 4 := by
      decide
    have hm : List.countP (fun p => decide (p.2.level = RiskLevel.Medium)) ex4High1Low = 0 := by
      decide
    have hl : List.countP (fun p => decide (p.2.level = RiskLevel.Low)) ex4High1Low = 1 := by
      decide
    have hlen5 : ex4High1Low.length = 5 := by decide
    simp only [calculate_overall_risk, hh, hm, hl, hlen5]
    norm_num [round1, round_eq]

/-- Witness for C5: the general aggregation theorem applied to the
Scenario-E prediction list. -/
theorem C5_overall_risk_witness :
    calculate_overall_risk ex4High1Low = claimOverall5 4 0 1 := by
  have h := C5_overall_risk.1 ex4High1Low (by decide)
  have hh : countLevel ex4High1Low .High = 4 := by decide
  have hm : countLevel ex4High1Low .Medium = 0 := by decide
  have hl : countLevel ex4High1Low .Low = 1 := by decide
  rw [h, hh, hm, hl]

/-! ## C8: risk prediction never propagates an exception -/

/-- C8: `predict_risks` returns the guarded body's bundle when it
succeeds, and on any internal error returns the fallback bundle, in
which every category's stored probability lies in `[25, 75]` (given the
`random.uniform(25, 75)` draws), the primary factors and mitigation
suggestions are the literal fallback-assessment strings, and the overall
risk level is Medium. -/
theorem C8_predict_risks_total (attempt : Except String RiskBundle)
    (u : String → ℚ) (now : ℚ) (hu : ∀ c, 25 ≤ u c ∧ u c ≤ 75) :
    (∀ r, attempt = .ok r → predict_risks attempt u now = r) ∧
    (∀ e, attempt = .error e →
      predict_risks attempt u now = generate_fallback_risks u now ∧
      (generate_fallback_risks u now).overall_risk.level = .Medium ∧
      ∀ p ∈ (generate_fallback_risks u now).risk_predictions,
        25 ≤ p.2.probability ∧ p.2.probability ≤ 75 ∧
        p.2.primary_factors = ["Analysis module error - using fallback assessment"] ∧
        p.2.mitigation_suggestions = ["Conduct detailed risk assessment manually"]) := by
  constructor
  · intro r hr
    rw [hr]
    rfl
  · intro e he
    rw [he]
    refine ⟨rfl, rfl, ?_⟩
    intro p hp
    simp only [generate_fallback_risks, List.mem_map] at hp
    obtain ⟨c, -, rfl⟩ := hp
    have hb := round1_mem_Icc 25 75
      (by push_cast; exact (hu c).1) (by push_cast; exact (hu c).2)
    refine ⟨?_, ?_, rfl, rfl⟩
    · have := hb.1; push_cast at this; exact this
    · have := hb.2; push_cast at this; exact this

/-- Witness for C8: a failing body with constant draws 30 yields the
Medium-level fallback bundle. -/
theorem C8_predict_risks_total_witness :
    (predict_risks (Except.error "boom") (fun _ => (30 : ℚ)) 0).overall_risk.level =
      .Medium := by
  have h := (C8_predict_risks_total (Except.error "boom") (fun _ => (30 : ℚ)) 0
    (by intro c; norm_num)).2 "boom" rfl
  rw [h.1]
  exact h.2.1

/-! ## C10: missing keys never reach the fallback branch -/

/-- C10: the rule-based path is total on every input dictionary: the
pipeline on a successfully computed rules bundle never takes the
fallback branch; a missing `overall_score` or missing section entries
are replaced by the fixed defaults (75; 70/70/70/80/75 for the five
driver sections); in particular the empty dictionary yields the computed
per-category predictions below, not the fallback bundle. -/
theorem C10_rule_defaults :
    (∀ (a : AnalysisInput) (now : ℚ) (u : String → ℚ),
      predict_risks (Except.ok (predict_risks_rules a now)) u now =
        predict_risks_rules a now) ∧
    (∀ cat : String,
      rule_based_risk cat { overall_score := none, section_analyses := [] } =
        rule_based_risk cat (mkFullInput 75 70 70 70 80 75)) ∧
    (predict_with_rules { overall_score := none, section_analyses := [] } =
      [("Budget Overrun Risk",
        { probability := 40, level := .Medium, severity := .Medium,
          primary_factors := identify_risk_factors "Budget Overrun Risk",
          mitigation_suggestions := get_mitigation_suggestions "Budget Overrun Risk" }),
       ("Timeline Delay Risk",
        { probability := 43, level := .Medium, severity := .Medium,
          primary_factors := identify_risk_factors "Timeline Delay Risk",
          mitigation_suggestions := get_mitigation_suggestions "Timeline Delay Risk" }),
       ("Technical Implementation Risk",
        { probability := 46, level := .Medium, severity := .Medium,
          primary_factors := identify_risk_factors "Technical Implementation Risk",
          mitigation_suggestions := get_mitigation_suggestions "Technical Implementation Risk" }),
       ("Compliance Risk",
        { probability := 33, level := .Low, severity := .Low,
          primary_factors := identify_risk_factors "Compliance Risk",
          mitigation_suggestions := get_mitigation_suggestions "Compliance Risk" }),
       ("Resource Availability Risk",
        { probability := 37.5, level := .Low, severity := .Low,
          primary_factors := identify_risk_factors "Resource Availability Risk",
          mitigation_suggestions := get_mitigation_suggestions "Resource Availability Risk" })]) := by
  refine ⟨fun a now u => rfl, fun cat => rfl, ?_⟩
  simp only [predict_with_rules, risk_categories, List.map_cons, List.map_nil,
    rule_based_risk, sectionScoreGet, levelOf, List.lookup]
  simp
  norm_num [round1, round_eq, min_def, max_def]

/-! ## C4: readability tiers (corrected) -/

/-- Counterexample to C4 as stated: at `sentence_count = 0` with the
toolkit available, `calculate_readability` returns 50.0, not the claimed
fallback 70. -/
theorem C4_readability_cex :
    calculate_readability true 100 0 = 50 ∧ calculate_readability true 100 0 ≠ 70 := by
  constructor
  · rfl
  · intro h
    rw [show calculate_readability true 100 0 = 50 from rfl] at h
    norm_num at h

/-- C4 amended: the readability tiers on average sentence length are
`<15 → 90`, `<20 → 75`, `<25 → 60`, else 45; the value is 70 when the
statistical-text toolkit is unavailable, and 50 (not 70) when
`sentence_count = 0`. -/
theorem C4_readability_amended (w s : Nat) :
    calculate_readability false w s = 70 ∧
    calculate_readability true w 0 = 50 ∧
    (0 < s → calculate_readability true w s =
      (if (w : ℚ) / (s : ℚ) < 15 then 90
       else if (w : ℚ) / (s : ℚ) < 20 then 75
       else if (w : ℚ) / (s : ℚ) < 25 then 60
       else 45)) := by
  refine ⟨rfl, rfl, ?_⟩
  intro hs
  simp [calculate_readability, Nat.pos_iff_ne_zero.mp hs]

/-- Witness for the amended C4: toolkit-unavailable gives 70, and 100
words over 10 sentences (average 10) gives 90. -/
theorem C4_readability_amended_witness :
    calculate_readability false 3 3 = 70 ∧ calculate_readability true 100 10 = 90 := by
  refine ⟨(C4_readability_amended 3 3).1, ?_⟩
  have h := (C4_readability_amended 100 10).2.2 (by norm_num)
  rw [h]
  norm_num

/-! ## C3: the analyzer fallback (corrected) -/

/-- The all-zero jitter oracle (one possible draw of
`np.random.randint`). -/
def zeroJitter : String → ℤ := fun _ => 0

/-- Counterexample to C3 as stated: when the analysis body fails on the
empty document, the returned fallback analysis has section results that
do not carry the `keyword_matches` key. -/
theorem C3_fallback_cex :
    ((analyze_dpr (Except.error "step failed") "f" "" 0 zeroJitter zeroJitter
        zeroJitter).section_analyses.all fun p => p.2.keyword_matches.isSome) = false := by
  rfl

/-- C3 amended: on any failure the analyzer returns the fallback
analysis (never propagating), whose `base_score` is
`min(85, max(45, 40 + word_count // 100))` and whose
`completeness_percentage` is 75.0; every fallback section result lacks
the `keyword_matches` key, its score lies in `[30, 100]` and quality in
`[33, 97]` (within the claimed `[0, 100]`), but its completeness lies in
`[35, 105]` and can exceed 100 (base 85 with jitter +20). -/
theorem C3_fallback_amended (e text filename : String) (now : ℚ) (jS jC jQ : String → ℤ)
    (hS : ∀ n, -15 ≤ jS n ∧ jS n ≤ 15)
    (hC : ∀ n, -10 ≤ jC n ∧ jC n ≤ 20)
    (hQ : ∀ n, -12 ≤ jQ n ∧ jQ n ≤ 12) :
    analyze_dpr (Except.error e) filename text now jS jC jQ =
      generate_fallback_analysis filename text now jS jC jQ ∧
    (generate_fallback_analysis filename text now jS jC jQ).overall_score =
      ((min 85 (max 45 (40 + wordCountOf text / 100)) : ℕ) : ℚ) ∧
    (generate_fallback_analysis filename text now jS jC jQ).completeness_percentage = 75 ∧
    ∀ p ∈ (generate_fallback_analysis filename text now jS jC jQ).section_analyses,
      p.2.keyword_matches = none ∧
      (30 ≤ p.2.score ∧ p.2.score ≤ 100) ∧
      (35 ≤ p.2.completeness ∧ p.2.completeness ≤ 105) ∧
      (33 ≤ p.2.quality ∧ p.2.quality ≤ 97) := by
  refine ⟨rfl, rfl, rfl, ?_⟩
  intro p hp
  simp only [generate_fallback_analysis, List.mem_map] at hp
  obtain ⟨n, -, rfl⟩ := hp
  have hbase : 45 ≤ min 85 (max 45 (40 + wordCountOf text / 100)) ∧
      min 85 (max 45 (40 + wordCountOf text / 100)) ≤ 85 := by omega
  have hb1 : (45 : ℚ) ≤ (min 85 (max 45 (40 + wordCountOf text / 100)) : ℕ) := by
    exact_mod_cast hbase.1
  have hb2 : ((min 85 (max 45 (40 + wordCountOf text / 100)) : ℕ) : ℚ) ≤ 85 := by
    exact_mod_cast hbase.2
  have hs1 : ((-15 : ℤ) : ℚ) ≤ (jS n : ℚ) := by exact_mod_cast (hS n).1
  have hs2 : ((jS n : ℤ) : ℚ) ≤ ((15 : ℤ) : ℚ) := by exact_mod_cast (hS n).2
  have hc1 : ((-10 : ℤ) : ℚ) ≤ (jC n : ℚ) := by exact_mod_cast (hC n).1
  have hc2 : ((jC n : ℤ) : ℚ) ≤ ((20 : ℤ) : ℚ) := by exact_mod_cast (hC n).2
  have hq1 : ((-12 : ℤ) : ℚ) ≤ (jQ n : ℚ) := by exact_mod_cast (hQ n).1
  have hq2 : ((jQ n : ℤ) : ℚ) ≤ ((12 : ℤ) : ℚ) := by exact_mod_cast (hQ n).2
  push_cast at hs1 hs2 hc1 hc2 hq1 hq2
  refine ⟨rfl, ⟨by linarith, by linarith⟩, ⟨by linarith, by linarith⟩,
    ⟨by linarith, by linarith⟩⟩

/-- Witness for the amended C3: the failing empty document with the
all-zero jitter draw. -/
theorem C3_fallback_amended_witness :
    analyze_dpr (Except.error "x") "f" "" 0 zeroJitter zeroJitter zeroJitter =
      generate_fallback_analysis "f" "" 0 zeroJitter zeroJitter zeroJitter ∧
    (generate_fallback_analysis "f" "" 0 zeroJitter zeroJitter
      zeroJitter).completeness_percentage = 75 := by
  have h := C3_fallback_amended "x" "" "f" 0 zeroJitter zeroJitter zeroJitter
    (by intro n; constructor <;> norm_num [zeroJitter])
    (by intro n; constructor <;> norm_num [zeroJitter])
    (by intro n; constructor <;> norm_num [zeroJitter])
  exact ⟨h.1, h.2.2.1⟩

/-! ## C9: determinism of the pipeline (corrected) -/

/-- The slice of an analysis record the risk predictor reads. -/
def inputOfRecord (r : AnalysisRecord) : AnalysisInput :=
  { overall_score := some r.overall_score
    section_analyses := r.section_analyses.map fun p => (p.1, some p.2.score) }

/-- Counterexample to C9 as stated: two runs on the same text at
different wall-clock instants produce records that are not identical
(they differ in `analyzed_at`). -/
theorem C9_determinism_cex :
    analyze_dpr_ok "some project text" "f.pdf" 0 ≠
      analyze_dpr_ok "some project text" "f.pdf" 1 := by
  intro h
  have h2 := congrArg AnalysisRecord.analyzed_at h
  norm_num [analyze_dpr_ok] at h2

/-- C9 amended: the successful analysis path is a pure function of the
input text apart from the `analyzed_at` timestamp — two runs agree on
every other field — and the rule-based risk results computed from the
two records are identical for every category. -/
theorem C9_determinism_amended (text fn : String) (t t' : ℚ) :
    { analyze_dpr_ok text fn t with analyzed_at := 0 } =
      { analyze_dpr_ok text fn t' with analyzed_at := 0 } ∧
    predict_with_rules (inputOfRecord (analyze_dpr_ok text fn t)) =
      predict_with_rules (inputOfRecord (analyze_dpr_ok text fn t')) ∧
    (predict_risks_rules (inputOfRecord (analyze_dpr_ok text fn t)) t).risk_predictions =
      (predict_risks_rules (inputOfRecord (analyze_dpr_ok text fn t')) t').risk_predictions := by
  exact ⟨rfl, rfl, rfl⟩

/-! ## C6: the overall score is a weighted average -/

/-- The overall-score aggregation applied to an arbitrary assignment of
section scores (the shape of the accumulation loop in `analyze_dpr`). -/
def overallScoreOf (f : String → ℚ) : ℚ :=
  round1 ((section_weights.map fun p => f p.1 * (p.2 / 100)).sum)

/-- C6: the catalog weights sum to 100; `analyze_dpr`'s overall score is
exactly the weighted aggregation of the section scores; the aggregation
of scores in `[0, 100]` stays in `[0, 100]`; and a uniform assignment
`s` aggregates to `round1 s`, within 0.1 of `s`, and exactly `s` for a
natural `s`. -/
theorem C6_weighted_average :
    ((section_weights.map Prod.snd).sum = 100) ∧
    (∀ text filename : String, ∀ now : ℚ,
      (analyze_dpr_ok text filename now).overall_score =
        overallScoreOf fun n => (analyze_section text n).score) ∧
    (∀ f : String → ℚ, (∀ n ∈ sectionNames, 0 ≤ f n ∧ f n ≤ 100) →
      0 ≤ overallScoreOf f ∧ overallScoreOf f ≤ 100) ∧
    (∀ s : ℚ, overallScoreOf (fun _ => s) = round1 s ∧ |overallScoreOf (fun _ => s) - s| ≤ 1 / 10) ∧
    (∀ s : ℕ, overallScoreOf (fun _ => (s : ℚ)) = s) := by
  have huniform : ∀ s : ℚ, overallScoreOf (fun _ => s) = round1 s := by
    intro s
    unfold overallScoreOf section_weights
    congr 1
    simp only [List.map_cons, List.map_nil, List.sum_cons, List.sum_nil]
    ring
  refine ⟨by norm_num [section_weights], fun text filename now => rfl, ?_, ?_, ?_⟩
  · intro f hf
    have h1 := hf "Context/Background" (by decide)
    have h2 := hf "Problems Addressed" (by decide)
    have h3 := hf "Project Objectives" (by decide)
    have h4 := hf "Technology Issues" (by decide)
    have h5 := hf "Management Arrangements" (by decide)
    have h6 := hf "Means of Finance" (by decide)
    have h7 := hf "Time Frame" (by decide)
    have h8 := hf "Target Beneficiaries" (by decide)
    have h9 := hf "Legal Framework" (by decide)
    have h10 := hf "Risk Analysis" (by decide)
    have hsum : (0 : ℚ) ≤ (section_weights.map fun p => f p.1 * (p.2 / 100)).sum ∧
        (section_weights.map fun p => f p.1 * (p.2 / 100)).sum ≤ 100 := by
      unfold section_weights
      simp only [List.map_cons, List.map_nil, List.sum_cons, List.sum_nil]
      constructor <;> nlinarith [h1.1, h1.2, h2.1, h2.2, h3.1, h3.2, h4.1, h4.2, h5.1,
        h5.2, h6.1, h6.2, h7.1, h7.2, h8.1, h8.2, h9.1, h9.2, h10.1, h10.2]
    have hmem := round1_mem_Icc 0 100
      (by push_cast; exact hsum.1) (by push_cast; exact hsum.2)
    constructor
    · have := hmem.1; push_cast at this; exact this
    · have := hmem.2; push_cast at this; exact this
  · intro s
    refine ⟨huniform s, ?_⟩
    rw [huniform s]
    have := abs_round1_sub s
    calc |round1 s - s| ≤ 1 / 20 := this
      _ ≤ 1 / 10 := by norm_num
  · intro s
    rw [huniform (s : ℚ)]
    have hcast : ((s : ℕ) : ℚ) = ((s : ℤ) : ℚ) := by push_cast; rfl
    rw [hcast, round1_intCast]

/-- Witness for C6: the bounds part applied to the constant assignment
50. -/
theorem C6_weighted_average_witness :
    0 ≤ overallScoreOf (fun _ => (50 : ℚ)) ∧ overallScoreOf (fun _ => (50 : ℚ)) ≤ 100 := by
  exact C6_weighted_average.2.2.1 (fun _ => (50 : ℚ)) (by intro n _; norm_num)

/-! ## C7: recommendation synthesis -/

/-- The claim's recommendation synthesis, stated from its words: the
sections scoring below 65 sorted ascending, at most 3 of them with
priority by the 50 threshold, then the conditional Overall-Quality
entry, then the conditional Technical-Feasibility entry, truncated to at
most 5. -/
def claimRecommendations (sa : List (String × ℚ)) (overall_score : ℚ) :
    List Recommendation :=
  ((((stableSortByScore (sa.filter fun p => decide (p.2 < 65))).take 3).map fun p =>
      ({ priority := if p.2 < (50 : ℚ) then "High" else "Medium"
         category := p.1
         recommendation := "Improve " ++ p.1 ++ " section to meet MDoNER standards" } :
        Recommendation)) ++
    (if overall_score < 70 then
      [({ priority := "High", category := "Overall Quality",
          recommendation :=
            "Comprehensive review and enhancement required across multiple sections" } :
        Recommendation)]
     else []) ++
    (if (sa.lookup "Technology Issues").getD 0 < 70 then
      [({ priority := "Medium", category := "Technical Feasibility",
          recommendation :=
            "Include detailed technical feasibility study and technology validation" } :
        Recommendation)]
     else [])).take 5

/-- C7: `generate_recommendations` computes exactly the claim's
selection — worst sub-65 sections first (ascending, at most 3, priority
by the 50 threshold), then the conditional overall-quality entry, then
the conditional technical entry — truncated to at most 5 entries. -/
theorem C7_recommendations (sa : List (String × ℚ)) (overall_score : ℚ) :
    generate_recommendations sa overall_score = claimRecommendations sa overall_score ∧
    (generate_recommendations sa overall_score).length ≤ 5 := by
  constructor
  · rfl
  · rw [show generate_recommendations sa overall_score =
      claimRecommendations sa overall_score from rfl]
    unfold claimRecommendations
    exact List.length_take_le _ _

end DPR
